import Mathlib

/-!
Shallow embedding of the core of `guillotina_oauth/oauth.py`:
the remote-call dispatcher (`OAuth.call_auth`), the service-token
manager (`OAuth.configured`, `OAuth.initialize`, `OAuth.service_token`,
its renewal loop), and the token-validation pipeline
(`OAuthJWTValidator.get_user_cache_key`, `OAuthJWTValidator.validate`,
`OAuthGuillotinaUser`).  Remote HTTP traffic, the JWT codec and the
wall clock are modelled as explicit inputs (scripts of events /
decode outcomes / a `now` parameter); everything else follows the
Python source line by line.
-/

namespace GuillotinaOauth

/-! ## Remote call dispatcher (`OAuth.call_auth`) -/

/-- `RETRIABLE_CODES = (484, 503)` from the source. -/
def RETRIABLE_CODES : List Nat := [484, 503]

/-- Payload of the `HTTPFailedDependency` raised by `call_auth`.
The generic handler omits the retries/status/text keys, hence `Option`. -/
structure DepPayload where
  reason : String
  message : String
  retries : Option Nat
  status : Option Nat
  text : Option String
deriving DecidableEq, Repr

/-- One HTTP response observed by an attempt of `call_auth`:
either status 200 carrying the (decoded) result, or a non-200
status with a body text. -/
inductive CallEvent where
  | success (result : Option String)
  | failure (status : Nat) (text : String)
deriving DecidableEq, Repr

/-- Side effects performed between a retriable failure and its retry:
`refresh_service_token()` on status 484, `asyncio.sleep(0.05)`
(50 milliseconds) otherwise. -/
inductive RetryAction where
  | refreshToken
  | pause (ms : Nat)
deriving DecidableEq, Repr

/-- Final outcome of a `call_auth` chain. `noResponse` is the artifact
of running off the end of the response script and corresponds to no
real execution. -/
inductive CallOutcome where
  | ok (result : Option String)
  | failedDep (p : DepPayload)
  | noResponse
deriving DecidableEq, Repr

/-- `OAuth.call_auth` error dispatch: each attempt consumes one response
from the script.  On a non-200 status in `RETRIABLE_CODES` with
`retries < 3` the call retries itself with `retries + 1`, refreshing
the service token first when the status is 484 and pausing 50 ms
otherwise; with the budget exhausted it raises `HTTPFailedDependency`
carrying reason, message, retries, status and body text.  A non-200
status `≥ 500` raises immediately; any other non-200 status falls
through and the function returns `None`. -/
def call_auth : List CallEvent → Nat → CallOutcome × List RetryAction
  | [], _ => (.noResponse, [])
  | (.success r) :: _, _ => (.ok r, [])
  | (.failure status text) :: rest, retries =>
    if status ∈ RETRIABLE_CODES then
      if retries < 3 then
        let act : RetryAction := if status = 484 then .refreshToken else .pause 50
        let next := call_auth rest (retries + 1)
        (next.1, act :: next.2)
      else
        (.failedDep ⟨"oauthServerFailure", "Failed to call oauth server",
                     some retries, some status, some text⟩, [])
    else if 500 ≤ status then
      (.failedDep ⟨"oauthServerFailure", "Unhandled oauth server error",
                   some retries, some status, some text⟩, [])
    else
      (.ok none, [])

/-! ## Service token manager -/

/-- The recognized `oauth_settings` options touched by `configured` and
`initialize`. -/
structure Settings where
  server : Option String
  jwt_secret : Option String
  client_id : Option String
  client_password : Option String
  auto_renew_token : Option Bool
deriving DecidableEq, Repr

/-- `OAuth.configured` as written in the source: the trailing comma makes
it a Python 2-tuple `("server" in s and "jwt_secret" in s and
"client_id" in s, "client_password" in s)`, modelled as the
corresponding two-element list. -/
def configured (s : Settings) : List Bool :=
  [s.server.isSome && s.jwt_secret.isSome && s.client_id.isSome,
   s.client_password.isSome]

/-- Python truthiness of a tuple: true exactly when it is non-empty. -/
def pyTruthy (t : List Bool) : Bool := !t.isEmpty

/-- Whether `OAuth.initialize` reaches the `while True` renewal loop. -/
inductive InitBehavior where
  | noLoop
  | entersLoop
deriving DecidableEq, Repr

/-- `OAuth.initialize` control flow: return early when
`auto_renew_token is False`, return early when `not self.configured`,
otherwise enter the renewal loop. -/
def oauthInit (s : Settings) : InitBehavior :=
  if s.auto_renew_token = some false then .noLoop
  else if pyTruthy (configured s) = false then .noLoop
  else .entersLoop

/-- The stored `_service_token` dict, reduced to the two keys the
manager reads: `exp` and `service_token`. -/
structure StoredToken where
  exp : Int
  service_token : String
deriving DecidableEq, Repr

/-- What the `service_token` property does: hand back the stored
credential, or fall through to `refresh_service_token()`. -/
inductive TokenFetch where
  | cached (tok : String)
  | refreshed
deriving DecidableEq, Repr

/-- `OAuth.service_token`: if a token is stored and
`(exp - 60) > now`, return the stored raw token; otherwise refresh. -/
def service_token (st : Option StoredToken) (now : Int) : TokenFetch :=
  match st with
  | some tk => if tk.exp - 60 > now then .cached tk.service_token else .refreshed
  | none => .refreshed

/-- One observable outcome of the body of the renewal loop in
`OAuth.initialize`: the refresh succeeded yielding a token with
expiry `exp`, or it raised one of the handled exception classes. -/
inductive LoopEvent where
  | renewed (exp : Int)
  | cancelled
  | connectionError
  | otherError
deriving DecidableEq, Repr

/-- What the loop does after one iteration: exit, or sleep some seconds
and go round again. -/
inductive LoopAction where
  | terminate
  | sleepThenContinue (seconds : Int)
deriving DecidableEq, Repr

/-- One iteration of the renewal loop: after a successful refresh sleep
`exp - now - 60`; on `CancelledError` return; on connection
refused/unreachable sleep 10; on any other exception sleep 30. -/
def loopIteration (now : Int) : LoopEvent → LoopAction
  | .renewed exp => .sleepThenContinue (exp - now - 60)
  | .cancelled => .terminate
  | .connectionError => .sleepThenContinue 10
  | .otherError => .sleepThenContinue 30

/-! ## Token validation pipeline (`OAuthJWTValidator`) -/

/-- The claims of a decoded JWT, reduced to the three keys `validate`
reads: `login`, `token` and `name`.  `none` models an absent key. -/
structure JwtClaims where
  login : Option String
  token : Option String
  name : Option String
deriving DecidableEq, Repr

/-- Outcome of one `jwt.decode` call on the inbound token. -/
inductive DecodeOutcome where
  | ok (claims : JwtClaims)
  | expiredSignature
  | invalidIssuedAt
  | decodeError
deriving DecidableEq, Repr

/-- The inbound token dict: `token.get("type")` and
`token.get("token")`. -/
structure InToken where
  type : Option String
  token : Option String
deriving DecidableEq, Repr

/-- The JSON body of a successful `get_user` response, reduced to what
`OAuthGuillotinaUser._init_data` reads: an association list of the
scalar fields (for the configurable `attr_id` lookup), the `roles`
and `groups` lists, and the optional `permissions` list. -/
structure UserData where
  fields : List (String × String)
  roles : List String
  groups : List String
  permissions : Option (List String)
deriving DecidableEq, Repr

/-- The `OAuthGuillotinaUser` record as `validate` finishes it:
`id = user_data[attr_id]`, `name`/`token` copied from the decoded
claims, roles/groups/permissions from the response. -/
structure OUser where
  id : String
  name : String
  token : String
  roles : List String
  groups : List String
  permissions : List String
deriving DecidableEq, Repr

/-- Dict key lookup on a `UserData` field table. -/
def lookupField (d : UserData) (k : String) : Option String :=
  (d.fields.find? (fun p => p.1 = k)).map Prod.snd

/-- Lookup in the `USER_CACHE` LRU, modelled as an association list. -/
def lookupCache (cache : List (String × OUser)) (k : String) : Option OUser :=
  (cache.find? (fun p => p.1 = k)).map Prod.snd

/-- `math.ceil(a / b)` on the naturals carried by the embedding. -/
def natCeilDiv (a b : Nat) : Nat := (a + b - 1) / b

/-- The time-bucket component of the cache key:
`math.ceil(math.ceil(time.time()) / USER_CACHE_DURATION)` (`now` is
already the integer `math.ceil(time.time())`). -/
def userCacheBucket (now dur : Nat) : Nat := natCeilDiv now dur

/-- `OAuthJWTValidator.get_user_cache_key`: the string
`"{scope}::{login}::{tok}::{bucket}"`, where `validate` passes
`validated_jwt["token"]` as `tok`. -/
def get_user_cache_key (scope login tok : String) (now dur : Nat) : String :=
  scope ++ "::" ++ login ++ "::" ++ tok ++ "::" ++ toString (userCacheBucket now dur)

/-- Modelled from the spec's words, for comparison only: the cache key
"computed from (current scope, login, raw token value, time bucket)"
with the RAW INBOUND token string as the third component. -/
def specCacheKey (scope login rawInbound : String) (now dur : Nat) : String :=
  scope ++ "::" ++ login ++ "::" ++ rawInbound ++ "::" ++ toString (userCacheBucket now dur)

/-- Outcome of the remote `call_auth("get_user", ...)` as seen by
`validate`: either a response body (possibly falsy) or an
`asyncio.TimeoutError`. -/
inductive RemoteOutcome where
  | result (r : Option UserData)
  | timeout
deriving DecidableEq, Repr

/-- Environment of one `validate` run: the current container scope, the
clock, the cache duration and contents, the configured `attr_id`, the
outcome of `jwt.decode` with full verification (`decode1`) and with
`verify_iat` disabled (`decode2`), and the remote `get_user` outcome. -/
structure ValidateEnv where
  scope : String
  now : Nat
  cacheDuration : Nat
  cache : List (String × OUser)
  attrId : String
  decode1 : DecodeOutcome
  decode2 : DecodeOutcome
  remote : RemoteOutcome
deriving DecidableEq, Repr

/-- How the decode block of `validate` resolves.  `uncaughtError` marks
an exception from the `verify_iat`-disabled re-decode that neither
inner handler nor the outer `except jwt.exceptions.DecodeError`
catches. -/
inductive DecodePhase where
  | ok (claims : JwtClaims)
  | unauthorized
  | softFail
  | uncaughtError
deriving DecidableEq, Repr

/-- The decode block: `ExpiredSignatureError` on the first decode raises
`HTTPUnauthorized`; `InvalidIssuedAtError` re-decodes once with
`verify_iat` disabled; `DecodeError` from either decode propagates to
the outer handler which returns `None`. -/
def decodePhase (d1 d2 : DecodeOutcome) : DecodePhase :=
  match d1 with
  | .ok c => .ok c
  | .expiredSignature => .unauthorized
  | .decodeError => .softFail
  | .invalidIssuedAt =>
    match d2 with
    | .ok c => .ok c
    | .decodeError => .softFail
    | .expiredSignature => .uncaughtError
    | .invalidIssuedAt => .uncaughtError

/-- Terminal outcome of `validate`: return `None`, return a user, raise
`HTTPUnauthorized`, raise an uncaught `KeyError` on the named claim,
raise `HTTPFailedDependency` on a remote timeout, or propagate an
uncaught exception from the re-decode. -/
inductive VOutcome where
  | noMatch
  | user (u : OUser)
  | unauthorized
  | keyError (claim : String)
  | depTimeout
  | uncaughtDecode
deriving DecidableEq, Repr

/-- Result of `validate` plus the side effects the claims talk about:
whether the remote `get_user` call was issued, and any cache store
performed. -/
structure VResult where
  outcome : VOutcome
  remoteCalled : Bool
  cacheStore : Option (String × OUser)
deriving DecidableEq, Repr

/-- `'.' in s` for the quick JWT shape check, over the character list so
it evaluates by structural recursion. -/
def strContainsDot (s : String) : Bool := s.data.contains '.'

/-- `OAuthJWTValidator.validate`, line by line: type check, dot check,
decode block, `login` claim check (caught `KeyError` → `None`), cache
key from `validated_jwt["token"]` (uncaught `KeyError` when absent),
cache hit short-circuit, remote `get_user` (timeout →
`HTTPFailedDependency`), falsy result → `None`, user construction
(`id = result[attr_id]`, uncaught `KeyError` when absent),
`user.name = validated_jwt["name"]` (uncaught `KeyError` when
absent), and the `user.id == token["id"]` integrity check with cache
store on success. -/
def validate (env : ValidateEnv) (tok : InToken) : VResult :=
  if tok.type ≠ some "bearer" ∧ tok.type ≠ some "wstoken" then
    ⟨.noMatch, false, none⟩
  else if strContainsDot (tok.token.getD "") = false then
    ⟨.noMatch, false, none⟩
  else
    match decodePhase env.decode1 env.decode2 with
    | .unauthorized => ⟨.unauthorized, false, none⟩
    | .softFail => ⟨.noMatch, false, none⟩
    | .uncaughtError => ⟨.uncaughtDecode, false, none⟩
    | .ok claims =>
      match claims.login with
      | none => ⟨.noMatch, false, none⟩
      | some login =>
        match claims.token with
        | none => ⟨.keyError "token", false, none⟩
        | some ctok =>
          let key := get_user_cache_key env.scope login ctok env.now env.cacheDuration
          match lookupCache env.cache key with
          | some u => ⟨.user u, false, none⟩
          | none =>
            match env.remote with
            | .timeout => ⟨.depTimeout, true, none⟩
            | .result none => ⟨.noMatch, true, none⟩
            | .result (some data) =>
              match lookupField data env.attrId with
              | none => ⟨.keyError env.attrId, true, none⟩
              | some uid =>
                match claims.name with
                | none => ⟨.keyError "name", true, none⟩
                | some nm =>
                  let u : OUser :=
                    ⟨uid, nm, ctok, data.roles, data.groups, data.permissions.getD []⟩
                  if uid = login then ⟨.user u, true, some (key, u)⟩
                  else ⟨.noMatch, true, none⟩

/-! ## Concrete inputs used by counterexamples and witnesses -/

/-- `oauth_settings` with every recognized option absent. -/
def emptySettings : Settings := ⟨none, none, none, none, none⟩

/-! ## Theorems -/

/-- C1: on a response whose status is in the retriable set {484, 503}
with the accumulated retry count below 3, `call_auth` retries the same
operation with the retry count incremented by one, performing a
service-token refresh before the retry exactly when the status is 484
and a fixed 50 ms pause for any other retriable status. -/
theorem call_auth_retriable_retry (status : Nat) (text : String)
    (rest : List CallEvent) (retries : Nat)
    (hst : status ∈ RETRIABLE_CODES) (hr : retries < 3) :
    call_auth (CallEvent.failure status text :: rest) retries =
      ((call_auth rest (retries + 1)).1,
        (if status = 484 then RetryAction.refreshToken else RetryAction.pause 50)
          :: (call_auth rest (retries + 1)).2) := by
  simp [call_auth, hst, hr]

/-- Witness for C1: a 503 on the first attempt leads to a retry with
count 1, preceded by a 50 ms pause and no token refresh. -/
theorem call_auth_retriable_retry_witness :
    call_auth [CallEvent.failure 503 "busy", CallEvent.success (some "ok")] 0 =
      ((call_auth [CallEvent.success (some "ok")] 1).1,
        (if (503 : Nat) = 484 then RetryAction.refreshToken else RetryAction.pause 50)
          :: (call_auth [CallEvent.success (some "ok")] 1).2) :=
  call_auth_retriable_retry 503 "busy" [CallEvent.success (some "ok")] 0
    (by decide) (by decide)

/-- C4: on a retriable status with the retry count already at the fixed
budget of 3, `call_auth` raises `HTTPFailedDependency` whose payload
carries the reason, message, accumulated retry count, last status
code and last response body text. -/
theorem call_auth_exhausted (status : Nat) (text : String)
    (rest : List CallEvent) (retries : Nat)
    (hst : status ∈ RETRIABLE_CODES) (hr : 3 ≤ retries) :
    call_auth (CallEvent.failure status text :: rest) retries =
      (CallOutcome.failedDep
        ⟨"oauthServerFailure", "Failed to call oauth server",
         some retries, some status, some text⟩, []) := by
  have hr' : ¬ retries < 3 := by omega
  simp [call_auth, hst, hr']

/-- Witness for C4: a 503 at retry count 3 yields the dependency-failure
payload with retries 3, status 503 and the body text. -/
theorem call_auth_exhausted_witness :
    call_auth [CallEvent.failure 503 "busy"] 3 =
      (CallOutcome.failedDep
        ⟨"oauthServerFailure", "Failed to call oauth server",
         some 3, some 503, some "busy"⟩, []) :=
  call_auth_exhausted 503 "busy" [] 3 (by decide) (by decide)

/-- C3 (code bug): with every configuration option absent,
`OAuth.initialize` still reaches the renewal loop, because the stray
trailing comma in `OAuth.configured` makes it a two-element tuple,
which is always truthy in Python, so `not self.configured` is never
taken. -/
theorem oauthInit_unconfigured_enters_loop :
    emptySettings.server = none ∧ emptySettings.jwt_secret = none ∧
    emptySettings.client_id = none ∧ emptySettings.client_password = none ∧
    pyTruthy (configured emptySettings) = true ∧
    oauthInit emptySettings = InitBehavior.entersLoop :=
  ⟨rfl, rfl, rfl, rfl, rfl, rfl⟩

/-- C7: the `service_token` property returns the stored credential
without a remote call exactly when a token is stored and its expiry
is more than 60 seconds after the current time; otherwise it falls
through to a refresh. -/
theorem service_token_policy (st : Option StoredToken) (now : Int) :
    ((∃ tok, service_token st now = TokenFetch.cached tok) ↔
      (∃ tk, st = some tk ∧ now + 60 < tk.exp)) ∧
    (∀ tk, st = some tk → now + 60 < tk.exp →
      service_token st now = TokenFetch.cached tk.service_token) ∧
    (∀ tk, st = some tk → tk.exp ≤ now + 60 →
      service_token st now = TokenFetch.refreshed) ∧
    (st = none → service_token st now = TokenFetch.refreshed) := by
  refine ⟨⟨?_, ?_⟩, ?_, ?_, ?_⟩
  · rintro ⟨tok, h⟩
    cases st with
    | none => simp [service_token] at h
    | some tk =>
      refine ⟨tk, rfl, ?_⟩
      by_cases hc : tk.exp - 60 > now
      · omega
      · simp [service_token, if_neg hc] at h
  · rintro ⟨tk, rfl, hlt⟩
    have hgt : tk.exp - 60 > now := by omega
    exact ⟨tk.service_token, by simp [service_token, if_pos hgt]⟩
  · rintro tk rfl hlt
    have hgt : tk.exp - 60 > now := by omega
    simp [service_token, if_pos hgt]
  · rintro tk rfl hle
    have hng : ¬ tk.exp - 60 > now := by omega
    simp [service_token, if_neg hng]
  · rintro rfl
    rfl

/-- Witness for C7: a token expiring at 200 is served from storage at
time 0 (margin 60 < 200), and one expiring at 50 triggers a refresh. -/
theorem service_token_policy_witness :
    service_token (some ⟨200, "tok"⟩) 0 = TokenFetch.cached "tok" ∧
    service_token (some ⟨50, "tok"⟩) 0 = TokenFetch.refreshed :=
  ⟨(service_token_policy (some ⟨200, "tok"⟩) 0).2.1 ⟨200, "tok"⟩ rfl (by decide),
   (service_token_policy (some ⟨50, "tok"⟩) 0).2.2.1 ⟨50, "tok"⟩ rfl (by decide)⟩

/-- C8: each iteration of the renewal loop sleeps `exp - now - 60`
seconds after a successful renewal (60 s for a credential expiring in
120 s), sleeps a fixed 10 s on a connection-refused/unreachable error,
sleeps 30 s on any other unexpected error, and terminates exactly on
the explicit cancellation signal. -/
theorem loopIteration_policy (now exp : Int) :
    loopIteration now (LoopEvent.renewed exp) =
      LoopAction.sleepThenContinue (exp - now - 60) ∧
    loopIteration now (LoopEvent.renewed (now + 120)) =
      LoopAction.sleepThenContinue 60 ∧
    loopIteration now LoopEvent.connectionError = LoopAction.sleepThenContinue 10 ∧
    loopIteration now LoopEvent.otherError = LoopAction.sleepThenContinue 30 ∧
    (∀ ev, loopIteration now ev = LoopAction.terminate ↔ ev = LoopEvent.cancelled) := by
  refine ⟨rfl, ?_, rfl, rfl, ?_⟩
  · show LoopAction.sleepThenContinue (now + 120 - now - 60) =
      LoopAction.sleepThenContinue 60
    congr 1
    ring
  · intro ev
    cases ev <;> simp [loopIteration]

/-- Witness for C8: at time 1000 a credential expiring at 1120 yields a
60-second sleep, and a connection error yields a 10-second sleep. -/
theorem loopIteration_policy_witness :
    loopIteration 1000 (LoopEvent.renewed 1120) = LoopAction.sleepThenContinue 60 ∧
    loopIteration 1000 LoopEvent.connectionError = LoopAction.sleepThenContinue 10 :=
  ⟨(loopIteration_policy 1000 1120).2.1, (loopIteration_policy 1000 1120).2.2.1⟩

/-- Cached user for the C2 counterexample. -/
def c2User : OUser := ⟨"alice", "Alice", "tok123", [], [], []⟩

/-- C2 counterexample environment: the cache holds an entry under the
key built from the RAW INBOUND token string `"aa.bb"`, while the
decoded claims carry the distinct `token` claim `"tok123"`. -/
def c2Env : ValidateEnv :=
  ⟨"root", 0, 120, [(specCacheKey "root" "alice" "aa.bb" 0 120, c2User)],
   "id", DecodeOutcome.ok ⟨some "alice", some "tok123", some "Alice"⟩,
   DecodeOutcome.decodeError, RemoteOutcome.result none⟩

/-- The C2 counterexample inbound token, raw value `"aa.bb"`. -/
def c2Tok : InToken := ⟨some "bearer", some "aa.bb"⟩

/-- C2 counterexample: with the cache holding exactly the key composed
from the raw inbound token value, `validate` misses the cache and
issues the remote call — the key it actually computes uses the
decoded `token` claim, not the raw inbound token string. -/
theorem validate_cache_key_counterexample :
    lookupCache c2Env.cache (specCacheKey "root" "alice" "aa.bb" 0 120) = some c2User ∧
    validate c2Env c2Tok = ⟨VOutcome.noMatch, true, none⟩ := by
  constructor <;> decide

/-- C2 (amended): the cache key is composed from the current scope id,
the login claim, the `token` claim of the decoded JWT, and the time
bucket `ceil(ceil(now)/cacheDurationSeconds)`; when that key is in
the cache, the cached user is returned immediately with no remote
call. -/
theorem validate_cache_hit (env : ValidateEnv) (tok : InToken)
    (claims : JwtClaims) (login ctok : String) (u : OUser)
    (htype : tok.type = some "bearer" ∨ tok.type = some "wstoken")
    (hdot : strContainsDot (tok.token.getD "") = true)
    (hdec : env.decode1 = DecodeOutcome.ok claims)
    (hlogin : claims.login = some login)
    (htok : claims.token = some ctok)
    (hhit : lookupCache env.cache
        (get_user_cache_key env.scope login ctok env.now env.cacheDuration) = some u) :
    validate env tok = ⟨VOutcome.user u, false, none⟩ := by
  rcases htype with h | h <;>
    simp [validate, h, hdot, hdec, decodePhase, hlogin, htok, hhit]

/-- Cached user for the C2 amended-claim witness. -/
def c2HitUser : OUser := ⟨"alice", "Alice", "tok123", [], [], []⟩

/-- C2 amended-claim witness environment: the cache holds the entry
under the key built from the decoded `token` claim. -/
def c2HitEnv : ValidateEnv :=
  ⟨"root", 0, 120, [(get_user_cache_key "root" "alice" "tok123" 0 120, c2HitUser)],
   "id", DecodeOutcome.ok ⟨some "alice", some "tok123", some "Alice"⟩,
   DecodeOutcome.decodeError, RemoteOutcome.result none⟩

/-- Witness for the amended C2: a cache entry under the key built from
the decoded `token` claim is returned with no remote call. -/
theorem validate_cache_hit_witness :
    validate c2HitEnv c2Tok = ⟨VOutcome.user c2HitUser, false, none⟩ :=
  validate_cache_hit c2HitEnv c2Tok ⟨some "alice", some "tok123", some "Alice"⟩
    "alice" "tok123" c2HitUser (Or.inl rfl) (by decide) rfl rfl rfl rfl

/-- C5: on a successful remote `get_user` response, `validate` builds the
user from the returned roles/groups/permissions and returns it exactly
when the constructed user's id (the response's `attr_id` field) equals
the login claim of the decoded token; a mismatched response yields
`None`. -/
theorem validate_identity_check (env : ValidateEnv) (tok : InToken)
    (claims : JwtClaims) (login ctok nm uid : String) (data : UserData)
    (htype : tok.type = some "bearer" ∨ tok.type = some "wstoken")
    (hdot : strContainsDot (tok.token.getD "") = true)
    (hdec : env.decode1 = DecodeOutcome.ok claims)
    (hlogin : claims.login = some login)
    (htok : claims.token = some ctok)
    (hname : claims.name = some nm)
    (hmiss : lookupCache env.cache
        (get_user_cache_key env.scope login ctok env.now env.cacheDuration) = none)
    (hrem : env.remote = RemoteOutcome.result (some data))
    (hid : lookupField data env.attrId = some uid) :
    (uid = login →
      validate env tok =
        ⟨VOutcome.user ⟨login, nm, ctok, data.roles, data.groups, data.permissions.getD []⟩,
         true,
         some (get_user_cache_key env.scope login ctok env.now env.cacheDuration,
               ⟨login, nm, ctok, data.roles, data.groups, data.permissions.getD []⟩)⟩) ∧
    (uid ≠ login → validate env tok = ⟨VOutcome.noMatch, true, none⟩) := by
  constructor
  · rintro rfl
    rcases htype with h | h <;>
      simp [validate, h, hdot, hdec, decodePhase, hlogin, htok, hname, hmiss, hrem, hid]
  · intro hne
    rcases htype with h | h <;>
      simp [validate, h, hdot, hdec, decodePhase, hlogin, htok, hname, hmiss, hrem, hid, hne]

/-- `get_user` response whose `attr_id` field (here `"id"`) matches the
login `alice`. -/
def c5Data : UserData := ⟨[("id", "alice")], [], [], some []⟩

/-- `get_user` response identifying a different user, `bob`. -/
def c5DataBob : UserData := ⟨[("id", "bob")], [], [], some []⟩

/-- C5 witness environment for the matching response. -/
def c5Env : ValidateEnv :=
  ⟨"root", 0, 120, [], "id",
   DecodeOutcome.ok ⟨some "alice", some "tok123", some "Alice"⟩,
   DecodeOutcome.decodeError, RemoteOutcome.result (some c5Data)⟩

/-- C5 witness environment for the mismatched response. -/
def c5EnvBob : ValidateEnv :=
  ⟨"root", 0, 120, [], "id",
   DecodeOutcome.ok ⟨some "alice", some "tok123", some "Alice"⟩,
   DecodeOutcome.decodeError, RemoteOutcome.result (some c5DataBob)⟩

/-- C5 witness inbound token. -/
def c5Tok : InToken := ⟨some "bearer", some "aa.bb"⟩

/-- Witness for C5: a response with id `alice` for login `alice` yields a
user with id `alice` (stored in the cache), and a response with id
`bob` for the same login yields no user. -/
theorem validate_identity_check_witness :
    validate c5Env c5Tok =
      ⟨VOutcome.user ⟨"alice", "Alice", "tok123", [], [], []⟩, true,
       some (get_user_cache_key "root" "alice" "tok123" 0 120,
             ⟨"alice", "Alice", "tok123", [], [], []⟩)⟩ ∧
    validate c5EnvBob c5Tok = ⟨VOutcome.noMatch, true, none⟩ :=
  ⟨(validate_identity_check c5Env c5Tok ⟨some "alice", some "tok123", some "Alice"⟩
      "alice" "tok123" "Alice" "alice" c5Data
      (Or.inl rfl) (by decide) rfl rfl rfl rfl rfl rfl rfl).1 rfl,
   (validate_identity_check c5EnvBob c5Tok ⟨some "alice", some "tok123", some "Alice"⟩
      "alice" "tok123" "Alice" "bob" c5DataBob
      (Or.inl rfl) (by decide) rfl rfl rfl rfl rfl rfl rfl).2 (by decide)⟩

/-- C6: for a token passing the type/shape check, an expired signature
raises unauthorized (distinct from the null outcome); an
issued-at-in-the-future error causes exactly one re-decode with
issued-at verification disabled, whose successful claims drive the
rest of the pipeline; and a generic decode error from either decode
returns null without raising. -/
theorem validate_decode_classification (env : ValidateEnv) (tok : InToken)
    (htype : tok.type = some "bearer" ∨ tok.type = some "wstoken")
    (hdot : strContainsDot (tok.token.getD "") = true) :
    (env.decode1 = DecodeOutcome.expiredSignature →
      validate env tok = ⟨VOutcome.unauthorized, false, none⟩) ∧
    (env.decode1 = DecodeOutcome.invalidIssuedAt →
      ∀ c, env.decode2 = DecodeOutcome.ok c →
        validate env tok =
          validate ⟨env.scope, env.now, env.cacheDuration, env.cache, env.attrId,
                    DecodeOutcome.ok c, env.decode2, env.remote⟩ tok) ∧
    (env.decode1 = DecodeOutcome.invalidIssuedAt →
      env.decode2 = DecodeOutcome.decodeError →
      validate env tok = ⟨VOutcome.noMatch, false, none⟩) ∧
    (env.decode1 = DecodeOutcome.decodeError →
      validate env tok = ⟨VOutcome.noMatch, false, none⟩) := by
  refine ⟨?_, ?_, ?_, ?_⟩
  · intro h1
    rcases htype with h | h <;> simp [validate, h, hdot, h1, decodePhase]
  · intro h1 c h2
    rcases htype with h | h <;> simp [validate, h, hdot, h1, h2, decodePhase]
  · intro h1 h2
    rcases htype with h | h <;> simp [validate, h, hdot, h1, h2, decodePhase]
  · intro h1
    rcases htype with h | h <;> simp [validate, h, hdot, h1, decodePhase]

/-- C6 witness environment: expired signature on the first decode. -/
def c6EnvExpired : ValidateEnv :=
  ⟨"root", 0, 120, [], "id", DecodeOutcome.expiredSignature,
   DecodeOutcome.decodeError, RemoteOutcome.result none⟩

/-- C6 witness environment: issued-at error, then a clean re-decode. -/
def c6EnvIat : ValidateEnv :=
  ⟨"root", 0, 120, [], "id", DecodeOutcome.invalidIssuedAt,
   DecodeOutcome.ok ⟨some "alice", some "tok123", some "Alice"⟩,
   RemoteOutcome.result none⟩

/-- C6 witness environment: generic decode error. -/
def c6EnvDecErr : ValidateEnv :=
  ⟨"root", 0, 120, [], "id", DecodeOutcome.decodeError,
   DecodeOutcome.decodeError, RemoteOutcome.result none⟩

/-- C6 witness inbound token. -/
def c6Tok : InToken := ⟨some "bearer", some "aa.bb"⟩

/-- Witness for C6: the three decode classifications at concrete
environments. -/
theorem validate_decode_classification_witness :
    validate c6EnvExpired c6Tok = ⟨VOutcome.unauthorized, false, none⟩ ∧
    validate c6EnvIat c6Tok =
      validate ⟨"root", 0, 120, [], "id",
                DecodeOutcome.ok ⟨some "alice", some "tok123", some "Alice"⟩,
                DecodeOutcome.ok ⟨some "alice", some "tok123", some "Alice"⟩,
                RemoteOutcome.result none⟩ c6Tok ∧
    validate c6EnvDecErr c6Tok = ⟨VOutcome.noMatch, false, none⟩ :=
  ⟨(validate_decode_classification c6EnvExpired c6Tok (Or.inl rfl) (by decide)).1 rfl,
   (validate_decode_classification c6EnvIat c6Tok (Or.inl rfl) (by decide)).2.1 rfl
     ⟨some "alice", some "tok123", some "Alice"⟩ rfl,
   (validate_decode_classification c6EnvDecErr c6Tok (Or.inl rfl) (by decide)).2.2.2 rfl⟩

/-- C9: an inbound token whose declared type is not bearer-like, or whose
token string contains no `.` delimiter, is rejected with the null
outcome and no remote call. -/
theorem validate_shape_reject (env : ValidateEnv) (tok : InToken)
    (h : (tok.type ≠ some "bearer" ∧ tok.type ≠ some "wstoken") ∨
         strContainsDot (tok.token.getD "") = false) :
    validate env tok = ⟨VOutcome.noMatch, false, none⟩ := by
  rcases h with h | h
  · simp [validate, h]
  · by_cases ht : tok.type ≠ some "bearer" ∧ tok.type ≠ some "wstoken"
    · simp [validate, ht]
    · simp [validate, ht, h]

/-- C9 witness environment (its decode and remote fields are never
reached). -/
def c9Env : ValidateEnv :=
  ⟨"root", 0, 120, [], "id", DecodeOutcome.decodeError,
   DecodeOutcome.decodeError, RemoteOutcome.result none⟩

/-- Witness for C9: a `basic`-typed token and a dot-less bearer token are
both rejected without a remote call. -/
theorem validate_shape_reject_witness :
    validate c9Env ⟨some "basic", some "aa.bb"⟩ =
      ⟨VOutcome.noMatch, false, none⟩ ∧
    validate c9Env ⟨some "bearer", some "nodots"⟩ =
      ⟨VOutcome.noMatch, false, none⟩ :=
  ⟨validate_shape_reject c9Env ⟨some "basic", some "aa.bb"⟩
      (Or.inl (by decide)),
   validate_shape_reject c9Env ⟨some "bearer", some "nodots"⟩
      (Or.inr (by decide))⟩

/-- C10: a verified token whose claims carry a login but no `token` claim
makes `validate` raise an uncaught `KeyError` (before any remote
call); likewise, after a successful remote lookup, absence of the
`name` claim raises an uncaught `KeyError` — neither path yields the
soft-failure null or an unauthorized error. -/
theorem validate_missing_claim_keyError (env : ValidateEnv) (tok : InToken)
    (claims : JwtClaims) (login : String)
    (htype : tok.type = some "bearer" ∨ tok.type = some "wstoken")
    (hdot : strContainsDot (tok.token.getD "") = true)
    (hdec : env.decode1 = DecodeOutcome.ok claims)
    (hlogin : claims.login = some login) :
    (claims.token = none →
      validate env tok = ⟨VOutcome.keyError "token", false, none⟩) ∧
    (∀ ctok data uid, claims.token = some ctok → claims.name = none →
      lookupCache env.cache
        (get_user_cache_key env.scope login ctok env.now env.cacheDuration) = none →
      env.remote = RemoteOutcome.result (some data) →
      lookupField data env.attrId = some uid →
      validate env tok = ⟨VOutcome.keyError "name", true, none⟩) := by
  constructor
  · intro htok
    rcases htype with h | h <;>
      simp [validate, h, hdot, hdec, decodePhase, hlogin, htok]
  · intro ctok data uid htok hname hmiss hrem hid
    rcases htype with h | h <;>
      simp [validate, h, hdot, hdec, decodePhase, hlogin, htok, hname, hmiss, hrem, hid]

/-- `get_user` response for the C10 missing-`name` witness. -/
def c10Data : UserData := ⟨[("id", "alice")], [], [], some []⟩

/-- C10 witness environment: claims with a login but no `token` claim. -/
def c10EnvNoTok : ValidateEnv :=
  ⟨"root", 0, 120, [], "id",
   DecodeOutcome.ok ⟨some "alice", none, some "Alice"⟩,
   DecodeOutcome.decodeError, RemoteOutcome.result none⟩

/-- C10 witness environment: claims with login and `token` but no `name`,
and a successful remote response. -/
def c10EnvNoName : ValidateEnv :=
  ⟨"root", 0, 120, [], "id",
   DecodeOutcome.ok ⟨some "alice", some "tok123", none⟩,
   DecodeOutcome.decodeError, RemoteOutcome.result (some c10Data)⟩

/-- C10 witness inbound token. -/
def c10Tok : InToken := ⟨some "bearer", some "aa.bb"⟩

/-- Witness for C10: the missing-`token`-claim and missing-`name`-claim
paths both end in an uncaught `KeyError`. -/
theorem validate_missing_claim_keyError_witness :
    validate c10EnvNoTok c10Tok = ⟨VOutcome.keyError "token", false, none⟩ ∧
    validate c10EnvNoName c10Tok = ⟨VOutcome.keyError "name", true, none⟩ :=
  ⟨(validate_missing_claim_keyError c10EnvNoTok c10Tok
      ⟨some "alice", none, some "Alice"⟩ "alice" (Or.inl rfl) (by decide) rfl rfl).1 rfl,
   (validate_missing_claim_keyError c10EnvNoName c10Tok
      ⟨some "alice", some "tok123", none⟩ "alice" (Or.inl rfl) (by decide) rfl rfl).2
      "tok123" c10Data "alice" rfl rfl rfl rfl rfl⟩

end GuillotinaOauth
